import Mathlib

/-!
Verification of the MSFS-PyScriptManager launcher
(`src/Launcher/LauncherApp/Source/Launcher.c`).

The C program is a process supervisor: it creates two named pipes (an
inbound output pipe and an outbound shutdown/command pipe), spawns a
Python worker process wired to the output pipe, relays the worker's
output to the console, sends periodic heartbeats on the command pipe,
forwards host console-control notifications as a `shutdown` token, and
finally propagates the worker's exit code as its own.

The development below is a shallow embedding: OS interactions
(`PeekNamedPipe`, `ReadFile`, `GetTickCount`, `WriteFile`,
`WaitForSingleObject`, handle creation and process spawning) are
modelled by explicit oracle inputs, and each C function becomes a Lean
function from those oracles to its result together with a trace of the
observable events it performs.  `GetTickCount` values are modelled as
unbounded naturals (no 49.7-day wraparound), matching the DWORD
arithmetic of the source for runs shorter than 2^32 ms.
-/

namespace Launcher

/-! ## Model of `processPipeDataLoop` (Launcher.c lines 60-108)

Each iteration of the C loop performs, in order:
  1. `PeekNamedPipe` on the inbound pipe; if it succeeds and bytes are
     available, `ReadFile` of at most `sizeof(buffer) - 1 = 4095` bytes,
     then `buffer[bytesRead] = 0` and `printf("%s", buffer)` — which
     prints the chunk only up to its first NUL byte;
  2. `GetTickCount`; if at least `heartbeatInterval` ms elapsed since
     `lastHeartbeatTime`, a `WriteFile` of `"HEARTBEAT\n"` on the
     command pipe (failure only logs an error), and `lastHeartbeatTime`
     is set to the current time whether or not the write succeeded;
  3. `WaitForSingleObject(hProcess, 0)`; if the worker has exited, log
     and break out of the loop;
  4. `Sleep(10)`.

The OS-provided values of one iteration are gathered in `IterIn`; a run
of the loop is driven by the list of `IterIn` values of its successive
iterations. -/

/-- Oracle inputs consumed by one iteration of the relay loop:
`arrival` is the byte sequence newly buffered in the output pipe before
this iteration's peek, `peekOk`/`readOk` are the success results of
`PeekNamedPipe`/`ReadFile`, `time` is this iteration's `GetTickCount`,
`hbOk` is the success result of the heartbeat `WriteFile`, and `exited`
tells whether `WaitForSingleObject(pi->hProcess, 0)` reports the worker
process as terminated. -/
structure IterIn where
  arrival : List Nat
  peekOk : Bool
  readOk : Bool
  time : Nat
  hbOk : Bool
  exited : Bool
deriving Repr, DecidableEq

/-- Loop-carried state of `processPipeDataLoop`: the bytes buffered in
the output pipe that have not yet been read, and `lastHeartbeatTime`. -/
structure LoopState where
  pending : List Nat
  lastHeartbeatTime : Nat
deriving Repr, DecidableEq

/-- `char buffer[4096]` (line 64). -/
def bufSize : Nat := 4096

/-- The read request size `sizeof(buffer) - 1` passed to `ReadFile` (line 79). -/
def readLimit : Nat := bufSize - 1

/-- `const DWORD heartbeatInterval = 1000` (line 67). -/
def heartbeatInterval : Nat := 1000

/-- Bytes actually emitted by `printf("%s", buffer)` for a NUL-terminated
chunk (line 83): everything up to the first NUL byte. -/
def printfString (chunk : List Nat) : List Nat :=
  chunk.takeWhile (fun b => b ≠ 0)

/-- Observable outcome of one loop iteration: the bytes printed to the
console, the bytes consumed from the pipe by `ReadFile`, whether a
heartbeat `WriteFile` was attempted, whether the heartbeat-failure
message was logged, and whether worker termination was detected. -/
structure IterOut where
  forwarded : List Nat
  readChunk : List Nat
  hbAttempt : Bool
  hbFailLogged : Bool
  exitDetected : Bool
deriving Repr, DecidableEq

/-- One iteration of the `while (1)` body of `processPipeDataLoop`
(lines 70-107). -/
def loopStep (s : LoopState) (i : IterIn) : LoopState × IterOut :=
  let pend := s.pending ++ i.arrival
  let doRead := i.peekOk && decide (0 < pend.length)
  let consume := doRead && i.readOk
  let chunk := if consume then pend.take readLimit else []
  let fwd := if 0 < chunk.length then printfString chunk else []
  let pend2 := if consume then pend.drop readLimit else pend
  let due := decide (heartbeatInterval ≤ i.time - s.lastHeartbeatTime)
  let lastHb2 := if due then i.time else s.lastHeartbeatTime
  (⟨pend2, lastHb2⟩, ⟨fwd, chunk, due, due && !i.hbOk, i.exited⟩)

/-- Run the loop over a finite schedule of iteration oracles.  The loop
breaks out (discarding the rest of the schedule) exactly when an
iteration detects worker termination, mirroring the `break` at
line 103. -/
def runLoop (s : LoopState) : List IterIn → LoopState × List IterOut
  | [] => (s, [])
  | i :: rest =>
    let p := loopStep s i
    if p.2.exitDetected then (p.1, [p.2])
    else
      let q := runLoop p.1 rest
      (q.1, p.2 :: q.2)

/-- `processPipeDataLoop` entry: the pipe starts with no buffered data
and `lastHeartbeatTime` is initialised to the `GetTickCount` value read
at line 66. -/
def processPipeDataLoop (startTime : Nat) (sched : List IterIn) :
    LoopState × List IterOut :=
  runLoop ⟨[], startTime⟩ sched

/-- Concatenation of all bytes printed to the console by a run. -/
def forwardedBytes (outs : List IterOut) : List Nat :=
  (outs.map IterOut.forwarded).flatten

/-- Concatenation of all bytes consumed from the output pipe by a run. -/
def consumedBytes (outs : List IterOut) : List Nat :=
  (outs.map IterOut.readChunk).flatten

/-- Number of heartbeat `WriteFile` attempts in a run. -/
def heartbeatCount (outs : List IterOut) : Nat :=
  outs.countP (fun o => o.hbAttempt)

/-! ## Model of `createNamedPipe` name generation (lines 110-144)

`createNamedPipe` generates the pipe name with
`snprintf(buf, n, "\\\\.\\pipe\\%s_%lu_%d", pipePrefix, pid, randomSuffix)`.
The `%lu`/`%d` conversions are modelled by `decimalChars`; the names
produced by `run_script` are far shorter than the 256-byte buffers, so
`snprintf` truncation never occurs and is not modelled. -/

/-- The ASCII digit character for a digit value `d < 10`. -/
def digitChar (d : Nat) : Char := Char.ofNat (48 + d)

/-- Decimal rendering of a natural number, as produced by `printf`'s
`%lu`/`%d` conversions for non-negative values. -/
def decimalChars (n : Nat) : List Char :=
  if n = 0 then ['0'] else ((Nat.digits 10 n).reverse.map digitChar)

/-- The fixed `\\.\pipe\` name header of the format string (line 123). -/
def pipeHeader : List Char := "\\\\.\\pipe\\".data

/-- Characters of the generated pipe name
`\\.\pipe\<pre>_<pid>_<randomSuffix>`. -/
def pipeNameChars (pre : List Char) (pid randomSuffix : Nat) : List Char :=
  pipeHeader ++ pre ++ '_' :: (decimalChars pid ++ '_' :: decimalChars randomSuffix)

/-- The generated pipe name as a string. -/
def pipeName (pre : String) (pid randomSuffix : Nat) : String :=
  ⟨pipeNameChars pre.data pid randomSuffix⟩

/-- Pipe prefix of the stdout inbound pipe (line 195). -/
def outPipePre : String := "PythonOutputPipe"

/-- Pipe prefix of the shutdown/command pipe (line 213). -/
def cmdPipePre : String := "PythonShutdownPipe"

/-! ## Model of `run_script` (lines 146-331) and `main` (lines 333-353)

Every fallible OS call of `run_script` is given a Boolean oracle in
`Env`, and the function is re-expressed as a Lean function from `Env`
to its `int` result paired with the trace of observable events it
performs, in program order.  `GetLastError` is modelled by a single
oracle value `lastError`, reported in every diagnostic that the C code
prints via `displayErrorAndRestoreConsole`. -/

/-- The handles `run_script` manipulates: the inbound output pipe, the
global command (shutdown) pipe, the worker-side write end of the output
pipe (`si.hStdOutput`), and the spawned process/thread handles. -/
inductive HandleId where
  | inboundPipe
  | commandPipe
  | stdoutWrite
  | workerProcess
  | workerThread
deriving Repr, DecidableEq

/-- Observable events of `run_script`: console prints, diagnostics
printed by `displayErrorAndRestoreConsole` (which include the
`GetLastError` code), `CreateNamedPipe` calls, the `CreateProcess`
call with its command line, `CloseHandle` calls, and the bytes relayed
by the run loop. -/
inductive Event where
  | print (s : String)
  | diag (msg : String) (errCode : Nat)
  | createPipe (name : String)
  | spawn (cmdLine : String)
  | closeHandle (h : HandleId)
  | loopForward (bytes : List Nat)
deriving Repr, DecidableEq

/-- Oracle environment for one invocation of `run_script`: results of
the fallible OS calls in program order, the `GetLastError` value,
process id and `rand()` value used for pipe names, the worker's exit
code reported by `GetExitCodeProcess`, and the run-loop schedule. -/
structure Env where
  loadOk : Bool
  consoleOk : Bool
  pipeOutOk : Bool
  pipeCmdOk : Bool
  stdoutOk : Bool
  spawnOk : Bool
  connectCmdOk : Bool
  connectOutOk : Bool
  lastError : Nat
  pid : Nat
  randomSuffix : Nat
  workerExitCode : Nat
  startTime : Nat
  sched : List IterIn
deriving Repr, DecidableEq

/-- Value of a C `int` holding a `DWORD`: the two's-complement
reinterpretation performed by `return exitCode` at line 330, where
`exitCode` is a `DWORD` and `run_script` returns `int`. -/
def intOfDWORD (n : Nat) : Int :=
  if n < 2 ^ 31 then (n : Int) else (n : Int) - 2 ^ 32

/-- The 32-bit process exit status the host derives from an `int`
returned by `main` (its value modulo 2^32). -/
def dwordOfInt (i : Int) : Nat := (i % 2 ^ 32).toNat

/-- The worker command line built at lines 231-233. -/
def commandLine (pythonPath scriptPath outName cmdName : String) : String :=
  "\"" ++ pythonPath ++ "\" -u \"" ++ scriptPath ++ "\" --output-pipe \"" ++
    outName ++ "\" --shutdown-pipe \"" ++ cmdName ++ "\""

/-- The banner printed at lines 153-154. -/
def bannerEvents : List Event :=
  [Event.print "MSFS-PyScriptManager: Loader exe\n",
   Event.print "-------------------------------------------------------------------------------------------\n\n"]

/-- Shallow embedding of `run_script` (lines 146-331): returns the
`int` result and the trace of observable events, following the C
control flow branch by branch. -/
def run_script (pythonPath scriptPath : String) (env : Env) : Int × List Event :=
  -- lines 161-165: loadConsoleFunctions failure
  if !env.loadOk then
    (-1, bannerEvents ++
      [.print "Error: Could not load necessary functions for managing the console window.\n"])
  -- lines 168-173: getConsoleWindow failure
  else if !env.consoleOk then
    (-1, bannerEvents ++ [.diag "Could not get console window handle." env.lastError])
  else
    let outName := pipeName outPipePre env.pid env.randomSuffix
    -- lines 194-209: create the stdout inbound pipe
    if !env.pipeOutOk then
      (-1, bannerEvents ++
        [.createPipe outName,
         .diag ("Failed to create named pipe: " ++ outName) env.lastError])
    else
      let cmdName := pipeName cmdPipePre env.pid env.randomSuffix
      -- lines 212-228: create the shutdown pipe
      if !env.pipeCmdOk then
        (-1, bannerEvents ++
          [.createPipe outName, .createPipe cmdName,
           .diag ("Failed to create named pipe: " ++ cmdName) env.lastError,
           .closeHandle .inboundPipe])
      else
        let cmd := commandLine pythonPath scriptPath outName cmdName
        -- lines 238-254: CreateFile of the worker-side write end
        if !env.stdoutOk then
          (-1, bannerEvents ++
            [.createPipe outName, .createPipe cmdName,
             .diag "Failed to open named pipe for the Python process." env.lastError,
             .closeHandle .inboundPipe, .closeHandle .commandPipe])
        -- lines 259-266: CreateProcess failure
        else if !env.spawnOk then
          (-1, bannerEvents ++
            [.createPipe outName, .createPipe cmdName, .spawn cmd,
             .diag "CreateProcess failed." env.lastError,
             .closeHandle .inboundPipe, .closeHandle .commandPipe,
             .closeHandle .stdoutWrite])
        -- lines 277-283: ConnectNamedPipe on the shutdown pipe
        else if !env.connectCmdOk then
          (-1, bannerEvents ++
            [.createPipe outName, .createPipe cmdName, .spawn cmd,
             .closeHandle .stdoutWrite,
             .print "Waiting for Launcher...\n",
             .diag "Failed to connect to shutdown named pipe." env.lastError,
             .closeHandle .inboundPipe])
        -- lines 286-294: ConnectNamedPipe on the output pipe
        else if !env.connectOutOk then
          (-1, bannerEvents ++
            [.createPipe outName, .createPipe cmdName, .spawn cmd,
             .closeHandle .stdoutWrite,
             .print "Waiting for Launcher...\n",
             .diag "Failed to connect to output named pipe." env.lastError,
             .closeHandle .inboundPipe])
        else
          -- lines 296-330: run loop, final wait, exit-code read, cleanup
          let loopRes := processPipeDataLoop env.startTime env.sched
          let code := env.workerExitCode
          (intOfDWORD code, bannerEvents ++
            [.createPipe outName, .createPipe cmdName, .spawn cmd,
             .closeHandle .stdoutWrite,
             .print "Waiting for Launcher...\n",
             .print "Launcher connected\n",
             .loopForward (forwardedBytes loopRes.2),
             .print (if code ≠ 0 then "\nPython script exited with error code\n"
                     else "Python script completed successfully.\n"),
             .closeHandle .inboundPipe, .closeHandle .commandPipe,
             .closeHandle .workerProcess, .closeHandle .workerThread])

/-- `pythonPath` fixed by `main` (line 336). -/
def defaultPythonPath : String := ".\\WinPython\\python-3.13.0rc1.amd64\\pythonw.exe"

/-- `scriptPath` fixed by `main` (line 337). -/
def defaultScriptPath : String := ".\\Launcher\\LauncherScript\\launcher.py"

/-- Shallow embedding of `main` (lines 333-353): runs `run_script` on
the fixed paths and returns its result unchanged (after prompting on a
nonzero result). -/
def main (env : Env) : Int × List Event :=
  let r := run_script defaultPythonPath defaultScriptPath env
  if r.1 ≠ 0 then (r.1, r.2 ++ [.print "Press any key to exit...\n"]) else r

/-- The 32-bit exit status the host observes for the supervisor
process, derived from `main`'s return value. -/
def supervisorExitStatus (env : Env) : Nat := dwordOfInt (main env).1

/-! ## Model of `ConsoleHandler` and the shared `g_hCommandPipe`
(lines 39-58, 259-266, 321-326)

`g_hCommandPipe` is a process-wide variable: set by `run_script` when
the shutdown pipe is created (line 212), written and closed-and-cleared
by `ConsoleHandler` on the first handled notification (lines 47-54),
and closed *without being cleared* by `run_script` both on the
`CreateProcess` failure path (line 263) and in the final cleanup
(lines 323-326).  `BridgeState` tracks whether the variable is
non-NULL and whether the underlying pipe handle has been closed. -/

/-- `CTRL_C_EVENT` (interrupt). -/
def CTRL_C_EVENT : Nat := 0

/-- `CTRL_CLOSE_EVENT` (interactive console close). -/
def CTRL_CLOSE_EVENT : Nat := 2

/-- `CTRL_LOGOFF_EVENT` (user logoff). -/
def CTRL_LOGOFF_EVENT : Nat := 5

/-- `CTRL_SHUTDOWN_EVENT` (system shutdown). -/
def CTRL_SHUTDOWN_EVENT : Nat := 6

/-- State of the shared command-pipe handle: `handleSet` is
`g_hCommandPipe != NULL`, `channelClosed` records whether the pipe
handle it holds has already been passed to `CloseHandle`. -/
structure BridgeState where
  handleSet : Bool
  channelClosed : Bool
deriving Repr, DecidableEq

/-- Observable operations on the command pipe performed by the shutdown
bridge: a `WriteFile` of the `"shutdown\n"` token (recording whether
the underlying handle had already been closed when the write was
attempted), and a `CloseHandle` call. -/
inductive BridgeEvent where
  | writeShutdown (afterClose : Bool)
  | closeCall
deriving Repr, DecidableEq

/-- Shallow embedding of `ConsoleHandler` (lines 43-58): on a
close/interrupt/shutdown notification, if `g_hCommandPipe` is non-NULL,
write the shutdown token, close the handle and clear the variable, and
return `TRUE`; on any other notification return `FALSE` and do
nothing. -/
def ConsoleHandler (s : BridgeState) (dwCtrlType : Nat) :
    BridgeState × List BridgeEvent × Bool :=
  if dwCtrlType = CTRL_CLOSE_EVENT ∨ dwCtrlType = CTRL_C_EVENT ∨
      dwCtrlType = CTRL_SHUTDOWN_EVENT then
    if s.handleSet then
      (⟨false, true⟩, [.writeShutdown s.channelClosed, .closeCall], true)
    else
      (s, [], true)
  else
    (s, [], false)

/-- Events affecting `g_hCommandPipe` during one supervisor lifetime:
a host termination notification (invoking `ConsoleHandler`), the
assignment at line 212 when the shutdown pipe is created, the
`CloseHandle(g_hCommandPipe)` on the `CreateProcess` failure path
(line 263), and the guarded `CloseHandle` of the final cleanup
(lines 323-326).  Neither close path clears the variable. -/
inductive LifeEvent where
  | notify (dwCtrlType : Nat)
  | assignPipe
  | spawnFailClose
  | finalClose
deriving Repr, DecidableEq

/-- Effect of one lifetime event on the shared handle state.  For the
two `run_script` close paths, `CloseHandle` on a NULL handle is a no-op
on the channel (line 263 passes `g_hCommandPipe` unconditionally, but
when it is NULL nothing is closed); when the handle is set, the channel
is closed but `g_hCommandPipe` keeps its (now stale) value. -/
def lifeStep (s : BridgeState) : LifeEvent → BridgeState × List BridgeEvent
  | .notify t =>
    let r := ConsoleHandler s t
    (r.1, r.2.1)
  | .assignPipe => (⟨true, false⟩, [])
  | .spawnFailClose =>
    if s.handleSet then (⟨true, true⟩, [.closeCall]) else (s, [])
  | .finalClose =>
    if s.handleSet then (⟨true, true⟩, [.closeCall]) else (s, [])

/-- Run a sequence of lifetime events from a given handle state,
collecting the command-pipe operations. -/
def runLife (s : BridgeState) : List LifeEvent → BridgeState × List BridgeEvent
  | [] => (s, [])
  | e :: rest =>
    let p := lifeStep s e
    let q := runLife p.1 rest
    (q.1, p.2 ++ q.2)

/-- Command-pipe operations over a supervisor lifetime started with
`g_hCommandPipe = NULL` (line 40). -/
def bridgeTrace (evs : List LifeEvent) : List BridgeEvent :=
  (runLife ⟨false, false⟩ evs).2

/-- Number of `"shutdown\n"` write attempts in a bridge trace. -/
def shutdownWriteCount (t : List BridgeEvent) : Nat :=
  t.countP (fun e => match e with | .writeShutdown _ => true | _ => false)

/-! ## Fixed inputs used by concrete checks and witnesses -/

/-- Whether a lifetime event is the `g_hCommandPipe` assignment of
line 212. -/
def isAssign : LifeEvent → Bool
  | .assignPipe => true
  | _ => false
/-- Replace an iteration oracle's heartbeat write result by success. -/
def idealizeIter (i : IterIn) : IterIn := { i with hbOk := true }
/-- Replace all heartbeat write results of a schedule by success. -/
def idealize (sched : List IterIn) : List IterIn := sched.map idealizeIter
/-- An environment in which every OS call succeeds and the worker exits
with code 7. -/
def allOkEnv : Env :=
  { loadOk := true, consoleOk := true, pipeOutOk := true, pipeCmdOk := true,
    stdoutOk := true, spawnOk := true, connectCmdOk := true, connectOutOk := true,
    lastError := 0, pid := 1, randomSuffix := 2, workerExitCode := 7,
    startTime := 0, sched := [] }
/-- An environment in which creation of the output pipe fails. -/
def pipeFailEnv : Env :=
  { loadOk := true, consoleOk := true, pipeOutOk := false, pipeCmdOk := true,
    stdoutOk := true, spawnOk := true, connectCmdOk := true, connectOutOk := true,
    lastError := 231, pid := 1, randomSuffix := 2, workerExitCode := 0,
    startTime := 0, sched := [] }
/-- An environment in which `CreateProcess` fails after channel setup. -/
def spawnFailEnv : Env :=
  { loadOk := true, consoleOk := true, pipeOutOk := true, pipeCmdOk := true,
    stdoutOk := true, spawnOk := false, connectCmdOk := true, connectOutOk := true,
    lastError := 2, pid := 1, randomSuffix := 2, workerExitCode := 0,
    startTime := 0, sched := [] }
/-- A schedule delivering one three-byte chunk before the worker
exits. -/
def c10Sched : List IterIn := [⟨[1, 2, 3], true, true, 0, true, true⟩]
/-- A schedule delivering the bytes of `"hi"` in two NUL-free chunks,
with the worker exiting at the second iteration. -/
def c2Sched : List IterIn :=
  [⟨[104], true, true, 0, true, false⟩, ⟨[105], true, true, 10, true, true⟩]
/-- A run whose iterations occur 1500 ms apart: ticks 1500, 3000, 4500,
6000, 7500, with the worker exiting at the last iteration. -/
def slowSched : List IterIn :=
  [⟨[], true, true, 1500, true, false⟩, ⟨[], true, true, 3000, true, false⟩,
   ⟨[], true, true, 4500, true, false⟩, ⟨[], true, true, 6000, true, false⟩,
   ⟨[], true, true, 7500, true, true⟩]

/-! ## Concrete sanity checks of the embedding -/

example :
    forwardedBytes (processPipeDataLoop 0
      [⟨[104, 105], true, true, 0, true, true⟩]).2 = [104, 105] := by
  decide
example :
    forwardedBytes (processPipeDataLoop 0
      [⟨[1, 0, 2], true, true, 0, true, true⟩]).2 = [1] := by
  decide
example : pipeName outPipePre 12 345 = "\\\\.\\pipe\\PythonOutputPipe_12_345" := by
  simp [pipeName, pipeNameChars, pipeHeader, decimalChars, digitChar, outPipePre]
example :
    bridgeTrace [.assignPipe, .notify CTRL_C_EVENT, .notify CTRL_CLOSE_EVENT] =
      [.writeShutdown false, .closeCall] := by
  decide

/-! ## Exit-code propagation (C1) -/

theorem dwordOfInt_intOfDWORD (n : Nat) (h : n < 2 ^ 32) :
    dwordOfInt (intOfDWORD n) = n := by
  unfold dwordOfInt intOfDWORD
  split <;> omega

theorem main_fst (env : Env) :
    (main env).1 = (run_script defaultPythonPath defaultScriptPath env).1 := by
  simp only [main]
  split <;> rfl

/-- C1: for every non-crash termination of the worker (all setup steps
succeed and the run loop exits), `run_script` returns the worker's exit
code (as a C `int`), `main` returns that value unchanged, and the
supervisor's own 32-bit process exit status equals the worker's exit
status. -/
theorem exit_propagation (env : Env)
    (hl : env.loadOk = true) (hc : env.consoleOk = true)
    (hpo : env.pipeOutOk = true) (hpc : env.pipeCmdOk = true)
    (hso : env.stdoutOk = true) (hsp : env.spawnOk = true)
    (hcc : env.connectCmdOk = true) (hco : env.connectOutOk = true)
    (hcode : env.workerExitCode < 2 ^ 32) :
    (run_script defaultPythonPath defaultScriptPath env).1 =
      intOfDWORD env.workerExitCode ∧
    (main env).1 = (run_script defaultPythonPath defaultScriptPath env).1 ∧
    supervisorExitStatus env = env.workerExitCode := by
  have h1 : (run_script defaultPythonPath defaultScriptPath env).1 =
      intOfDWORD env.workerExitCode := by
    simp [run_script, hl, hc, hpo, hpc, hso, hsp, hcc, hco]
  refine ⟨h1, main_fst env, ?_⟩
  rw [supervisorExitStatus, main_fst env, h1, dwordOfInt_intOfDWORD _ hcode]

theorem exit_propagation_witness :
    allOkEnv.workerExitCode < 2 ^ 32 ∧
    supervisorExitStatus allOkEnv = allOkEnv.workerExitCode :=
  ⟨by decide,
   (exit_propagation allOkEnv rfl rfl rfl rfl rfl rfl rfl rfl (by decide)).2.2⟩

/-! ## Fail-fast on channel creation failure (C4) -/

/-- C4: if creation of either named pipe fails (once `run_script` has
reached the channel-creation stage), `CreateProcess` is never invoked,
a diagnostic carrying the `GetLastError` code is printed, and
`run_script` returns a nonzero status. -/
theorem channel_creation_failfast (pythonPath scriptPath : String) (env : Env)
    (hl : env.loadOk = true) (hc : env.consoleOk = true)
    (hfail : env.pipeOutOk = false ∨ env.pipeCmdOk = false) :
    (∀ c, Event.spawn c ∉ (run_script pythonPath scriptPath env).2) ∧
    (∃ m, Event.diag m env.lastError ∈ (run_script pythonPath scriptPath env).2) ∧
    (run_script pythonPath scriptPath env).1 ≠ 0 := by
  cases h1 : env.pipeOutOk with
  | false =>
    refine ⟨?_, ⟨"Failed to create named pipe: " ++
      pipeName outPipePre env.pid env.randomSuffix, ?_⟩, ?_⟩ <;>
      simp [run_script, hl, hc, h1, bannerEvents]
  | true =>
    have h2 : env.pipeCmdOk = false := by
      rcases hfail with h | h
      · rw [h1] at h; exact absurd h (by decide)
      · exact h
    refine ⟨?_, ⟨"Failed to create named pipe: " ++
      pipeName cmdPipePre env.pid env.randomSuffix, ?_⟩, ?_⟩ <;>
      simp [run_script, hl, hc, h1, h2, bannerEvents]

theorem channel_creation_failfast_witness :
    pipeFailEnv.pipeOutOk = false ∧
    (run_script defaultPythonPath defaultScriptPath pipeFailEnv).1 ≠ 0 :=
  ⟨rfl,
   (channel_creation_failfast defaultPythonPath defaultScriptPath pipeFailEnv
     rfl rfl (Or.inl rfl)).2.2⟩

/-! ## Cleanup on spawn failure (C8) -/

/-- C8: if `CreateProcess` fails after both pipes were created and the
worker-side write handle was opened, all three handles are closed and
`run_script` returns a nonzero status. -/
theorem spawn_failure_cleanup (pythonPath scriptPath : String) (env : Env)
    (hl : env.loadOk = true) (hc : env.consoleOk = true)
    (hpo : env.pipeOutOk = true) (hpc : env.pipeCmdOk = true)
    (hso : env.stdoutOk = true) (hsp : env.spawnOk = false) :
    (run_script pythonPath scriptPath env).1 ≠ 0 ∧
    Event.closeHandle HandleId.inboundPipe ∈ (run_script pythonPath scriptPath env).2 ∧
    Event.closeHandle HandleId.commandPipe ∈ (run_script pythonPath scriptPath env).2 ∧
    Event.closeHandle HandleId.stdoutWrite ∈ (run_script pythonPath scriptPath env).2 := by
  refine ⟨?_, ?_, ?_, ?_⟩ <;>
    simp [run_script, hl, hc, hpo, hpc, hso, hsp, bannerEvents]

theorem spawn_failure_cleanup_witness :
    spawnFailEnv.spawnOk = false ∧
    (run_script defaultPythonPath defaultScriptPath spawnFailEnv).1 ≠ 0 :=
  ⟨rfl,
   (spawn_failure_cleanup defaultPythonPath defaultScriptPath spawnFailEnv
     rfl rfl rfl rfl rfl rfl).1⟩

/-! ## Shutdown-token delivery (C3, C5) -/

theorem runLife_write_bound (evs : List LifeEvent) (s : BridgeState) :
    shutdownWriteCount (runLife s evs).2 ≤
      (if s.handleSet then 1 else 0) + evs.countP isAssign := by
  induction evs generalizing s with
  | nil => simp [runLife, shutdownWriteCount]
  | cons e rest ih =>
    have hsplit : shutdownWriteCount (runLife s (e :: rest)).2 =
        shutdownWriteCount (lifeStep s e).2 +
        shutdownWriteCount (runLife (lifeStep s e).1 rest).2 := by
      simp [runLife, shutdownWriteCount, List.countP_append]
    rw [hsplit]
    cases e with
    | notify t =>
      by_cases ht : t = CTRL_CLOSE_EVENT ∨ t = CTRL_C_EVENT ∨ t = CTRL_SHUTDOWN_EVENT
      · by_cases hs : s.handleSet
        · have := ih ⟨false, true⟩
          simp [lifeStep, ConsoleHandler, ht, hs, shutdownWriteCount, isAssign] at *
          omega
        · have := ih s
          simp [lifeStep, ConsoleHandler, ht, hs, shutdownWriteCount, isAssign] at *
          omega
      · have := ih s
        simp [lifeStep, ConsoleHandler, ht, shutdownWriteCount, isAssign] at *
        omega
    | assignPipe =>
      have := ih ⟨true, false⟩
      simp [lifeStep, shutdownWriteCount, isAssign] at *
      omega
    | spawnFailClose =>
      by_cases hs : s.handleSet
      · have := ih ⟨true, true⟩
        simp [lifeStep, hs, shutdownWriteCount, isAssign] at *
        omega
      · have := ih s
        simp [lifeStep, hs, shutdownWriteCount, isAssign] at *
        omega
    | finalClose =>
      by_cases hs : s.handleSet
      · have := ih ⟨true, true⟩
        simp [lifeStep, hs, shutdownWriteCount, isAssign] at *
        omega
      · have := ih s
        simp [lifeStep, hs, shutdownWriteCount, isAssign] at *
        omega

theorem runLife_no_write_after_close (evs : List LifeEvent) (s : BridgeState)
    (hclean : ∀ e ∈ evs, e ≠ LifeEvent.spawnFailClose ∧ e ≠ LifeEvent.finalClose)
    (hinv : s.channelClosed = true → s.handleSet = false) :
    BridgeEvent.writeShutdown true ∉ (runLife s evs).2 := by
  induction evs generalizing s with
  | nil => simp [runLife]
  | cons e rest ih =>
    have hcleanRest : ∀ e ∈ rest, e ≠ LifeEvent.spawnFailClose ∧ e ≠ LifeEvent.finalClose :=
      fun x hx => hclean x (List.mem_cons_of_mem _ hx)
    cases e with
    | notify t =>
      by_cases ht : t = CTRL_CLOSE_EVENT ∨ t = CTRL_C_EVENT ∨ t = CTRL_SHUTDOWN_EVENT
      · by_cases hs : s.handleSet
        · have hopen : s.channelClosed = false := by
            cases hcl : s.channelClosed with
            | false => rfl
            | true => rw [hinv hcl] at hs; exact absurd hs (by decide)
          have := ih ⟨false, true⟩ hcleanRest (by intro; rfl)
          simp [runLife, lifeStep, ConsoleHandler, ht, hs, hopen, this]
        · have := ih s hcleanRest hinv
          simp [runLife, lifeStep, ConsoleHandler, ht, hs, this]
      · have := ih s hcleanRest hinv
        simp [runLife, lifeStep, ConsoleHandler, ht, this]
    | assignPipe =>
      have := ih ⟨true, false⟩ hcleanRest (by intro h; exact absurd h (by decide))
      simp [runLife, lifeStep, this]
    | spawnFailClose =>
      exact absurd rfl (hclean _ (List.mem_cons_self _ _)).1
    | finalClose =>
      exact absurd rfl (hclean _ (List.mem_cons_self _ _)).2

/-- C3 (amended): across one supervisor lifetime in which the command
pipe is assigned at most once, at most one shutdown token is ever
written; and provided `run_script`'s own close paths (the
`CreateProcess`-failure cleanup and the final cleanup, which close the
pipe without clearing `g_hCommandPipe`) do not run, no shutdown write
is ever attempted on an already-closed channel.  The unqualified
no-write-after-close property of the original claim fails: see the
counterexample. -/
theorem shutdown_single_delivery (evs : List LifeEvent)
    (hassign : evs.countP isAssign ≤ 1) :
    shutdownWriteCount (bridgeTrace evs) ≤ 1 ∧
    ((∀ e ∈ evs, e ≠ LifeEvent.spawnFailClose ∧ e ≠ LifeEvent.finalClose) →
      BridgeEvent.writeShutdown true ∉ bridgeTrace evs) := by
  constructor
  · have := runLife_write_bound evs ⟨false, false⟩
    simp only [bridgeTrace]
    simp at this
    omega
  · intro hclean
    exact runLife_no_write_after_close evs ⟨false, false⟩ hclean
      (by intro h; exact absurd h (by decide))

theorem shutdown_single_delivery_witness :
    ([LifeEvent.assignPipe, .notify CTRL_C_EVENT,
        .notify CTRL_CLOSE_EVENT].countP isAssign ≤ 1) ∧
    shutdownWriteCount (bridgeTrace [LifeEvent.assignPipe, .notify CTRL_C_EVENT,
        .notify CTRL_CLOSE_EVENT]) ≤ 1 :=
  ⟨by decide,
   (shutdown_single_delivery [LifeEvent.assignPipe, .notify CTRL_C_EVENT,
      .notify CTRL_CLOSE_EVENT] (by decide)).1⟩

/-- C3 counterexample: after the `CreateProcess`-failure path has closed
the command pipe without clearing `g_hCommandPipe` (line 263), a
subsequent interrupt notification attempts the shutdown write on the
already-closed channel, refuting "no write to the control channel is
attempted after it has been closed". -/
theorem shutdown_write_after_close_counterexample :
    BridgeEvent.writeShutdown true ∈
      bridgeTrace [LifeEvent.assignPipe, .spawnFailClose, .notify CTRL_C_EVENT] := by
  decide

/-- C5 (amended): with the command pipe created and not yet closed, the
first interactive-close, interrupt, or shutdown notification writes the
shutdown token on the still-open channel, closes it, and returns TRUE
(reporting the event handled, which suppresses further handlers; for
close/shutdown-class events the host still terminates the process);
a logoff notification is not handled by `ConsoleHandler`: it performs
no write and no close and returns FALSE. -/
theorem console_handler_first_notification (t : Nat)
    (ht : t = CTRL_CLOSE_EVENT ∨ t = CTRL_C_EVENT ∨ t = CTRL_SHUTDOWN_EVENT) :
    ConsoleHandler ⟨true, false⟩ t =
      (⟨false, true⟩, [BridgeEvent.writeShutdown false, BridgeEvent.closeCall], true) ∧
    ConsoleHandler ⟨true, false⟩ CTRL_LOGOFF_EVENT = (⟨true, false⟩, [], false) := by
  constructor
  · simp [ConsoleHandler, ht]
  · decide

theorem console_handler_first_notification_witness :
    (CTRL_CLOSE_EVENT = CTRL_CLOSE_EVENT ∨ CTRL_CLOSE_EVENT = CTRL_C_EVENT ∨
      CTRL_CLOSE_EVENT = CTRL_SHUTDOWN_EVENT) ∧
    ConsoleHandler ⟨true, false⟩ CTRL_CLOSE_EVENT =
      (⟨false, true⟩, [BridgeEvent.writeShutdown false, BridgeEvent.closeCall], true) :=
  ⟨Or.inl rfl, (console_handler_first_notification CTRL_CLOSE_EVENT (Or.inl rfl)).1⟩

/-- C5 counterexample: a first logoff notification (`CTRL_LOGOFF_EVENT`)
does not cause the handler to write the shutdown token or close the
channel — the handler leaves the state unchanged, emits no channel
operation, and returns FALSE. -/
theorem console_handler_logoff_counterexample :
    (ConsoleHandler ⟨true, false⟩ CTRL_LOGOFF_EVENT).2.1 = [] ∧
    (ConsoleHandler ⟨true, false⟩ CTRL_LOGOFF_EVENT).1 = ⟨true, false⟩ ∧
    (ConsoleHandler ⟨true, false⟩ CTRL_LOGOFF_EVENT).2.2 = false := by
  decide

/-! ## Relay loop: buffer bounds (C10) -/

theorem loopStep_chunk_le (s : LoopState) (i : IterIn) :
    (loopStep s i).2.readChunk.length ≤ readLimit := by
  simp only [loopStep]
  split <;> simp [List.length_take]

theorem runLoop_chunk_le (sched : List IterIn) (s : LoopState) :
    ∀ o ∈ (runLoop s sched).2, o.readChunk.length ≤ readLimit := by
  induction sched generalizing s with
  | nil => simp [runLoop]
  | cons i rest ih =>
    intro o ho
    by_cases hex : (loopStep s i).2.exitDetected
    · simp [runLoop, hex] at ho
      rw [ho]
      exact loopStep_chunk_le s i
    · simp [runLoop, hex] at ho
      rcases ho with rfl | ho
      · exact loopStep_chunk_le s i
      · exact ih _ o ho

/-- C10: every chunk consumed (and hence forwarded) in a single
run-loop iteration is at most `sizeof(buffer) - 1 = 4095` bytes, so the
terminating NUL written at index `bytesRead` stays inside the
4096-byte buffer; and when more than 4095 bytes are pending, one
iteration consumes exactly the first 4095 and leaves the remainder
pending for later iterations. -/
theorem relay_chunk_bounded (startTime : Nat) (sched : List IterIn) :
    (∀ o ∈ (processPipeDataLoop startTime sched).2,
      o.readChunk.length ≤ bufSize - 1 ∧ o.readChunk.length < bufSize) ∧
    (∀ s i, (loopStep s i).2.readChunk ≠ [] →
      (loopStep s i).2.readChunk = (s.pending ++ i.arrival).take (bufSize - 1) ∧
      (loopStep s i).1.pending = (s.pending ++ i.arrival).drop (bufSize - 1)) := by
  constructor
  · intro o ho
    have h := runLoop_chunk_le sched ⟨[], startTime⟩ o ho
    have hb : readLimit = bufSize - 1 := rfl
    constructor
    · rw [← hb]; exact h
    · rw [← hb] at *
      have : readLimit < bufSize := by decide
      omega
  · intro s i hne
    by_cases hp : i.peekOk <;> by_cases hr : i.readOk <;>
      by_cases hlen : 0 < (s.pending ++ i.arrival).length <;>
      simp [loopStep, hp, hr, hlen, readLimit] at hne ⊢ <;>
      exact ⟨fun h1 h2 => absurd h2 (hne.2.2 h1),
             fun h1 h2 => absurd h2 (hne.2.2 h1)⟩

theorem relay_chunk_bounded_witness :
    IterOut.mk [1, 2, 3] [1, 2, 3] false false true ∈
      (processPipeDataLoop 0 c10Sched).2 ∧
    (IterOut.mk [1, 2, 3] [1, 2, 3] false false true).readChunk.length ≤ bufSize - 1 :=
  ⟨by decide,
   ((relay_chunk_bounded 0 c10Sched).1
     (IterOut.mk [1, 2, 3] [1, 2, 3] false false true) (by decide)).1⟩

/-! ## Relay loop: heartbeat-failure non-fatality (C6) -/

theorem loopStep_idealize (s : LoopState) (i : IterIn) :
    loopStep s (idealizeIter i) =
      ((loopStep s i).1,
       { (loopStep s i).2 with hbFailLogged := false }) := by
  simp [loopStep, idealizeIter]

theorem runLoop_idealize (sched : List IterIn) (s : LoopState) :
    (runLoop s (idealize sched)).1 = (runLoop s sched).1 ∧
    (runLoop s (idealize sched)).2.map IterOut.forwarded =
      (runLoop s sched).2.map IterOut.forwarded ∧
    (runLoop s (idealize sched)).2.map IterOut.readChunk =
      (runLoop s sched).2.map IterOut.readChunk ∧
    (runLoop s (idealize sched)).2.map IterOut.hbAttempt =
      (runLoop s sched).2.map IterOut.hbAttempt ∧
    (runLoop s (idealize sched)).2.map IterOut.exitDetected =
      (runLoop s sched).2.map IterOut.exitDetected ∧
    (runLoop s (idealize sched)).2.length = (runLoop s sched).2.length := by
  induction sched generalizing s with
  | nil => simp [runLoop, idealize]
  | cons i rest ih =>
    have hstep := loopStep_idealize s i
    by_cases hex : (loopStep s i).2.exitDetected
    · have hex2 : (loopStep s (idealizeIter i)).2.exitDetected := by
        rw [hstep]; exact hex
      simp [runLoop, idealize, hex, hex2, hstep]
    · have hex2 : ¬(loopStep s (idealizeIter i)).2.exitDetected := by
        rw [hstep]; exact hex
      have ihs := ih (loopStep s i).1
      simp only [idealize] at ihs
      simp [runLoop, idealize, hex, hex2, hstep, ihs.1, ihs.2.1, ihs.2.2.1,
        ihs.2.2.2.1, ihs.2.2.2.2.1, ihs.2.2.2.2.2]

theorem runLoop_length_eq (sched : List IterIn) (s : LoopState) :
    (runLoop s sched).2.length =
      min sched.length (sched.findIdx (fun i => i.exited) + 1) := by
  induction sched generalizing s with
  | nil => simp [runLoop]
  | cons i rest ih =>
    have hexit : (loopStep s i).2.exitDetected = i.exited := rfl
    cases hex : i.exited with
    | true =>
      simp [runLoop, hexit, hex, List.findIdx_cons]
    | false =>
      simp [runLoop, hexit, hex, List.findIdx_cons, ih (loopStep s i).1]
      omega

/-- C6: a failed heartbeat write is non-fatal.  Replacing every
heartbeat write result of a schedule by success changes nothing
observable except the absence of failure-log lines: the final loop
state, the forwarded output, the consumed chunks, the positions of the
heartbeat attempts (so an attempt still happens at the next due tick),
the exit-detection pattern and the number of iterations are all
identical.  A failure is logged exactly when a due heartbeat write
fails, exit detection of an iteration depends only on the worker's
having exited, and the loop runs the whole schedule unless an
iteration's worker-exit check fires — it never exits because of a
heartbeat write failure. -/
theorem heartbeat_failure_nonfatal (startTime : Nat) (sched : List IterIn) :
    (processPipeDataLoop startTime (idealize sched)).1 =
      (processPipeDataLoop startTime sched).1 ∧
    forwardedBytes (processPipeDataLoop startTime (idealize sched)).2 =
      forwardedBytes (processPipeDataLoop startTime sched).2 ∧
    (processPipeDataLoop startTime (idealize sched)).2.map IterOut.hbAttempt =
      (processPipeDataLoop startTime sched).2.map IterOut.hbAttempt ∧
    (processPipeDataLoop startTime (idealize sched)).2.map IterOut.exitDetected =
      (processPipeDataLoop startTime sched).2.map IterOut.exitDetected ∧
    (processPipeDataLoop startTime (idealize sched)).2.length =
      (processPipeDataLoop startTime sched).2.length ∧
    (∀ s i, (loopStep s i).2.hbFailLogged =
        ((loopStep s i).2.hbAttempt && !i.hbOk) ∧
      (loopStep s i).2.exitDetected = i.exited) ∧
    (processPipeDataLoop startTime sched).2.length =
      min sched.length (sched.findIdx (fun i => i.exited) + 1) := by
  have h := runLoop_idealize sched ⟨[], startTime⟩
  refine ⟨h.1, ?_, h.2.2.2.1, h.2.2.2.2.1, h.2.2.2.2.2, ?_, ?_⟩
  · simp only [processPipeDataLoop, forwardedBytes]
    rw [h.2.1]
  · intro s i
    exact ⟨rfl, rfl⟩
  · exact runLoop_length_eq sched ⟨[], startTime⟩

/-! ## Relay loop: byte round-trip (C2) -/

theorem runLoop_cons_exit (s : LoopState) (i : IterIn) (rest : List IterIn)
    (h : i.exited = true) :
    runLoop s (i :: rest) = ((loopStep s i).1, [(loopStep s i).2]) := by
  have hex : (loopStep s i).2.exitDetected = i.exited := rfl
  simp [runLoop, hex, h]

theorem runLoop_cons_noexit (s : LoopState) (i : IterIn) (rest : List IterIn)
    (h : i.exited = false) :
    runLoop s (i :: rest) =
      ((runLoop (loopStep s i).1 rest).1,
       (loopStep s i).2 :: (runLoop (loopStep s i).1 rest).2) := by
  have hex : (loopStep s i).2.exitDetected = i.exited := rfl
  simp [runLoop, hex, h]

theorem loopStep_consume_append (s : LoopState) (i : IterIn) :
    (loopStep s i).2.readChunk ++ (loopStep s i).1.pending =
      s.pending ++ i.arrival := by
  by_cases hc : ((i.peekOk && decide (0 < (s.pending ++ i.arrival).length)) &&
      i.readOk) = true
  · show (if ((i.peekOk && decide (0 < (s.pending ++ i.arrival).length)) &&
        i.readOk) = true then (s.pending ++ i.arrival).take readLimit else []) ++
      (if ((i.peekOk && decide (0 < (s.pending ++ i.arrival).length)) &&
        i.readOk) = true then (s.pending ++ i.arrival).drop readLimit
       else s.pending ++ i.arrival) = s.pending ++ i.arrival
    rw [if_pos hc, if_pos hc, List.take_append_drop]
  · show (if ((i.peekOk && decide (0 < (s.pending ++ i.arrival).length)) &&
        i.readOk) = true then (s.pending ++ i.arrival).take readLimit else []) ++
      (if ((i.peekOk && decide (0 < (s.pending ++ i.arrival).length)) &&
        i.readOk) = true then (s.pending ++ i.arrival).drop readLimit
       else s.pending ++ i.arrival) = s.pending ++ i.arrival
    rw [if_neg hc, if_neg hc, List.nil_append]

theorem printfString_if (chunk : List Nat) :
    (if 0 < chunk.length then printfString chunk else []) = printfString chunk := by
  cases chunk with
  | nil => simp [printfString]
  | cons a l => simp

theorem loopStep_forwarded_eq (s : LoopState) (i : IterIn) :
    (loopStep s i).2.forwarded = printfString (loopStep s i).2.readChunk :=
  printfString_if _

theorem runLoop_consumed (sched : List IterIn) (s : LoopState) :
    consumedBytes (runLoop s sched).2 ++ (runLoop s sched).1.pending =
      s.pending ++
        (((sched.take (runLoop s sched).2.length).map IterIn.arrival).flatten) := by
  induction sched generalizing s with
  | nil => simp [runLoop, consumedBytes]
  | cons i rest ih =>
    by_cases hex : (loopStep s i).2.exitDetected
    · simp [runLoop, hex, consumedBytes]
      have := loopStep_consume_append s i
      simpa using this
    · have ihs := ih (loopStep s i).1
      simp [runLoop, hex, consumedBytes] at ihs ⊢
      rw [ihs, ← List.append_assoc, loopStep_consume_append s i,
        List.append_assoc]

theorem runLoop_forwarded_eq_consumed (sched : List IterIn) (s : LoopState)
    (hpend : ∀ b ∈ s.pending, b ≠ 0)
    (hsched : ∀ it ∈ sched, ∀ b ∈ it.arrival, b ≠ 0) :
    forwardedBytes (runLoop s sched).2 = consumedBytes (runLoop s sched).2 := by
  induction sched generalizing s with
  | nil => simp [runLoop, forwardedBytes, consumedBytes]
  | cons i rest ih =>
    have hall : ∀ b ∈ s.pending ++ i.arrival, b ≠ 0 := by
      intro b hb
      rcases List.mem_append.mp hb with h | h
      · exact hpend b h
      · exact hsched i (List.mem_cons_self i rest) b h
    have hchunk : ∀ b ∈ (loopStep s i).2.readChunk, b ≠ 0 := by
      intro b hb
      have hsub : (loopStep s i).2.readChunk ⊆ s.pending ++ i.arrival := by
        intro x hx
        have := loopStep_consume_append s i
        rw [← this]
        exact List.mem_append_left _ hx
      exact hall b (hsub hb)
    have hfwd : (loopStep s i).2.forwarded = (loopStep s i).2.readChunk := by
      rw [loopStep_forwarded_eq]
      exact List.takeWhile_eq_self_iff.mpr (by
        intro x hx
        simpa using hchunk x hx)
    by_cases hex : (loopStep s i).2.exitDetected
    · simp [runLoop, hex, forwardedBytes, consumedBytes, hfwd]
    · have hpend2 : ∀ b ∈ (loopStep s i).1.pending, b ≠ 0 := by
        intro b hb
        have : b ∈ s.pending ++ i.arrival := by
          rw [← loopStep_consume_append s i]
          exact List.mem_append_right _ hb
        exact hall b this
      have ihs := ih (loopStep s i).1 hpend2
        (fun it hit => hsched it (List.mem_cons_of_mem _ hit))
      simp [runLoop, hex, forwardedBytes, consumedBytes, hfwd] at ihs ⊢
      exact ihs

/-- C2 (amended): for every schedule of byte chunks written by the
worker, provided no chunk contains a NUL byte and the loop drains the
output channel completely before it stops, the bytes forwarded to the
console equal the concatenation, in order, of the chunks delivered to
the iterations that ran — forwarded exactly once, with no byte dropped
or altered.  Binary safety does not extend to NUL bytes: the relay
prints each read with `printf("%s", buffer)`, which truncates a chunk
at its first NUL byte (see the counterexample). -/
theorem relay_roundtrip (startTime : Nat) (sched : List IterIn)
    (hnz : ∀ it ∈ sched, ∀ b ∈ it.arrival, b ≠ 0)
    (hdrained : (processPipeDataLoop startTime sched).1.pending = []) :
    forwardedBytes (processPipeDataLoop startTime sched).2 =
      (((sched.take (processPipeDataLoop startTime sched).2.length).map
          IterIn.arrival).flatten) := by
  have h1 := runLoop_consumed sched ⟨[], startTime⟩
  have h2 := runLoop_forwarded_eq_consumed sched ⟨[], startTime⟩ (by simp) hnz
  simp only [processPipeDataLoop] at h1 h2 hdrained ⊢
  rw [hdrained, List.append_nil] at h1
  simpa [h2] using h1

theorem relay_roundtrip_witness :
    (∀ b ∈ (104 : Nat) :: [105], b ≠ 0) ∧
    (processPipeDataLoop 0 c2Sched).1.pending = [] ∧
    forwardedBytes (processPipeDataLoop 0 c2Sched).2 =
      (((c2Sched.take (processPipeDataLoop 0 c2Sched).2.length).map
          IterIn.arrival).flatten) :=
  ⟨by decide, by decide,
   relay_roundtrip 0 c2Sched (by decide) (by decide)⟩

/-- C2 counterexample: a single worker chunk `[1, 0, 2]` containing a
NUL byte is forwarded as `[1]` — the NUL and the byte after it are
dropped by `printf("%s", buffer)` — so the forwarded bytes differ from
the concatenation of the written chunks. -/
theorem relay_nul_counterexample :
    forwardedBytes (processPipeDataLoop 0
      [⟨[1, 0, 2], true, true, 0, true, true⟩]).2 = [1] ∧
    ([[1, 0, 2]] : List (List Nat)).flatten = [1, 0, 2] ∧
    ([1] : List Nat) ≠ [1, 0, 2] := by
  decide

/-! ## Heartbeat cadence (C7) -/

theorem loopStep_lastHb (s : LoopState) (i : IterIn) :
    (loopStep s i).1.lastHeartbeatTime =
      if heartbeatInterval ≤ i.time - s.lastHeartbeatTime then i.time
      else s.lastHeartbeatTime := by
  by_cases hdue : heartbeatInterval ≤ i.time - s.lastHeartbeatTime <;>
    simp [loopStep, hdue]

theorem loopStep_hbAttempt (s : LoopState) (i : IterIn) :
    (loopStep s i).2.hbAttempt =
      decide (heartbeatInterval ≤ i.time - s.lastHeartbeatTime) := rfl

theorem heartbeatCount_cons (o : IterOut) (tail : List IterOut) :
    heartbeatCount (o :: tail) =
      heartbeatCount tail + (if o.hbAttempt then 1 else 0) := by
  simp [heartbeatCount, List.countP_cons]

theorem runLoop_hb_bound (sched : List IterIn) (s : LoopState) (B : Nat)
    (htime : ∀ it ∈ sched, it.time ≤ B) (hs : s.lastHeartbeatTime ≤ B) :
    heartbeatCount (runLoop s sched).2 * 1000 + s.lastHeartbeatTime ≤ B := by
  induction sched generalizing s with
  | nil => simpa [runLoop, heartbeatCount] using hs
  | cons i rest ih =>
    have hi : i.time ≤ B := htime i (List.mem_cons_self i rest)
    have hdue1000 : (heartbeatInterval ≤ i.time - s.lastHeartbeatTime) ↔
        (1000 ≤ i.time - s.lastHeartbeatTime) := by
      simp [heartbeatInterval]
    cases hexit : i.exited with
    | true =>
      rw [runLoop_cons_exit s i rest hexit]
      rw [show ([(loopStep s i).2] : List IterOut) = (loopStep s i).2 :: [] from rfl,
        heartbeatCount_cons]
      rw [loopStep_hbAttempt]
      by_cases hdue : heartbeatInterval ≤ i.time - s.lastHeartbeatTime
      · rw [if_pos (by simpa using hdue)]
        have h1000 : 1000 ≤ i.time - s.lastHeartbeatTime := hdue1000.mp hdue
        simp [heartbeatCount]
        omega
      · rw [if_neg (by simpa using hdue)]
        simp [heartbeatCount]
        omega
    | false =>
      rw [runLoop_cons_noexit s i rest hexit]
      rw [heartbeatCount_cons, loopStep_hbAttempt]
      have ihs := ih (loopStep s i).1
        (fun it hit => htime it (List.mem_cons_of_mem _ hit))
        (by
          rw [loopStep_lastHb]
          by_cases hdue : heartbeatInterval ≤ i.time - s.lastHeartbeatTime
          · rw [if_pos hdue]; exact hi
          · rw [if_neg hdue]; exact hs)
      rw [loopStep_lastHb] at ihs
      by_cases hdue : heartbeatInterval ≤ i.time - s.lastHeartbeatTime
      · rw [if_pos hdue] at ihs
        rw [if_pos (by simpa using hdue)]
        have h1000 : 1000 ≤ i.time - s.lastHeartbeatTime := hdue1000.mp hdue
        omega
      · rw [if_neg hdue] at ihs
        rw [if_neg (by simpa using hdue)]
        omega

/-- C7 (amended): across a run in which every iteration tick falls
within `D` milliseconds of the loop's start tick, the number of
heartbeat writes is at most `floor(D / T)` with `T = 1000` ms.  The
lower bound `floor(D / T) - 1` of the original claim fails: because
`lastHeartbeatTime` is reset to the current tick at each send, a slow
iteration does skip due heartbeats instead of merely delaying them
(see the counterexample). -/
theorem heartbeat_cadence_upper (startTime D : Nat) (sched : List IterIn)
    (htime : ∀ it ∈ sched, it.time ≤ startTime + D) :
    heartbeatCount (processPipeDataLoop startTime sched).2 ≤
      D / heartbeatInterval := by
  have h := runLoop_hb_bound sched ⟨[], startTime⟩ (startTime + D) htime
    (by show startTime ≤ startTime + D; omega)
  have h2 : heartbeatCount (runLoop ⟨[], startTime⟩ sched).2 * 1000 ≤ D := by
    have hlast : (⟨[], startTime⟩ : LoopState).lastHeartbeatTime = startTime := rfl
    rw [hlast] at h
    omega
  simp only [processPipeDataLoop]
  refine (Nat.le_div_iff_mul_le (by simp [heartbeatInterval])).mpr ?_
  simpa [heartbeatInterval] using h2

theorem heartbeat_cadence_upper_witness :
    (IterIn.mk [] true true 1500 true false).time ≤ 0 + 7500 ∧
    heartbeatCount (processPipeDataLoop 0 slowSched).2 ≤ 7500 / heartbeatInterval :=
  ⟨by decide, heartbeat_cadence_upper 0 7500 slowSched (by decide)⟩

/-- C7 counterexample: the `slowSched` run lasts D = 7500 ms from start
tick 0 with T = 1000 ms, yet only 5 heartbeats are written — outside
`floor(D/T) ± 1 = 6..8` — because each send reschedules the next beat a
full interval after the send time, so 1500 ms iterations skip beats. -/
theorem heartbeat_cadence_counterexample :
    heartbeatCount (processPipeDataLoop 0 slowSched).2 = 5 ∧
    ¬(7500 / heartbeatInterval - 1 ≤ 5 ∧ 5 ≤ 7500 / heartbeatInterval + 1) := by
  decide

/-! ## Pipe-name uniqueness (C9) -/

theorem digitChar_inj_lt : ∀ d < 10, ∀ e < 10, digitChar d = digitChar e → d = e := by
  decide

theorem digitChar_ne_underscore : ∀ d < 10, digitChar d ≠ '_' := by
  decide

theorem decimalChars_digit_lt (n : Nat) :
    ∀ c ∈ decimalChars n, ∃ d, d < 10 ∧ c = digitChar d := by
  intro c hc
  unfold decimalChars at hc
  by_cases hn : n = 0
  · rw [if_pos hn] at hc
    simp at hc
    exact ⟨0, by omega, by rw [hc]; rfl⟩
  · rw [if_neg hn] at hc
    simp only [List.mem_map, List.mem_reverse] at hc
    obtain ⟨d, hd, hdc⟩ := hc
    exact ⟨d, Nat.digits_lt_base (by omega) hd, hdc.symm⟩

theorem decimalChars_no_underscore (n : Nat) : ∀ c ∈ decimalChars n, c ≠ '_' := by
  intro c hc
  obtain ⟨d, hd, rfl⟩ := decimalChars_digit_lt n c hc
  exact digitChar_ne_underscore d hd

theorem map_digitChar_inj (l1 : List Nat) :
    ∀ l2 : List Nat, (∀ d ∈ l1, d < 10) → (∀ d ∈ l2, d < 10) →
      l1.map digitChar = l2.map digitChar → l1 = l2 := by
  induction l1 with
  | nil =>
    intro l2 _ _ h
    cases l2 with
    | nil => rfl
    | cons b u => simp at h
  | cons a t ih =>
    intro l2 h1 h2 h
    cases l2 with
    | nil => simp at h
    | cons b u =>
      simp only [List.map_cons, List.cons.injEq] at h
      have hab : a = b :=
        digitChar_inj_lt a (h1 a (List.mem_cons_self a t))
          b (h2 b (List.mem_cons_self b u)) h.1
      have htu : t = u :=
        ih u (fun d hd => h1 d (List.mem_cons_of_mem _ hd))
          (fun d hd => h2 d (List.mem_cons_of_mem _ hd)) h.2
      rw [hab, htu]

theorem decimalChars_eq_single_zero (n : Nat) (h : decimalChars n = ['0']) :
    n = 0 := by
  by_contra hn
  unfold decimalChars at h
  rw [if_neg hn] at h
  have hlen : (Nat.digits 10 n).length = 1 := by
    have := congrArg List.length h
    simpa using this
  obtain ⟨d, hd⟩ := List.length_eq_one.mp hlen
  rw [hd] at h
  simp only [List.reverse_cons, List.reverse_nil, List.nil_append, List.map_cons,
    List.map_nil, List.cons.injEq, and_true] at h
  have hmem : d ∈ Nat.digits 10 n := by
    rw [hd]
    exact List.mem_cons_self d []
  have hd10 : d < 10 := Nat.digits_lt_base (by omega) hmem
  have hd0 : d = 0 := by
    have h0 : digitChar d = digitChar 0 := by rw [h]; rfl
    exact digitChar_inj_lt d hd10 0 (by omega) h0
  apply hn
  have hcast := congrArg (Nat.ofDigits 10) hd
  rw [Nat.ofDigits_digits] at hcast
  rw [hd0] at hcast
  simpa [Nat.ofDigits] using hcast

theorem decimalChars_inj (m n : Nat) (h : decimalChars m = decimalChars n) :
    m = n := by
  by_cases hm : m = 0
  · subst hm
    have h0 : decimalChars n = ['0'] := by
      rw [← h]; rfl
    exact (decimalChars_eq_single_zero n h0).symm
  · by_cases hn : n = 0
    · subst hn
      have h0 : decimalChars m = ['0'] := by
        rw [h]; rfl
      exact decimalChars_eq_single_zero m h0
    · unfold decimalChars at h
      rw [if_neg hm, if_neg hn] at h
      have hrev : (Nat.digits 10 m).reverse = (Nat.digits 10 n).reverse :=
        map_digitChar_inj _ _
          (fun d hd => Nat.digits_lt_base (by omega) (List.mem_reverse.mp hd))
          (fun d hd => Nat.digits_lt_base (by omega) (List.mem_reverse.mp hd)) h
      have hdig : Nat.digits 10 m = Nat.digits 10 n := List.reverse_inj.mp hrev
      have := congrArg (Nat.ofDigits 10) hdig
      rwa [Nat.ofDigits_digits, Nat.ofDigits_digits] at this

theorem underscore_split (A : List Char) :
    ∀ (B C D : List Char), (∀ c ∈ A, c ≠ '_') → (∀ c ∈ C, c ≠ '_') →
      A ++ '_' :: B = C ++ '_' :: D → A = C ∧ B = D := by
  induction A with
  | nil =>
    intro B C D _ hC h
    cases C with
    | nil => simpa using h
    | cons c cs =>
      simp only [List.nil_append, List.cons_append, List.cons.injEq] at h
      exact absurd h.1.symm (hC c (List.mem_cons_self c cs))
  | cons a as ih =>
    intro B C D hA hC h
    cases C with
    | nil =>
      simp only [List.nil_append, List.cons_append, List.cons.injEq] at h
      exact absurd h.1 (hA a (List.mem_cons_self a as))
    | cons c cs =>
      simp only [List.cons_append, List.cons.injEq] at h
      obtain ⟨hac, hrest⟩ := h
      have := ih B cs D (fun x hx => hA x (List.mem_cons_of_mem _ hx))
        (fun x hx => hC x (List.mem_cons_of_mem _ hx)) hrest
      exact ⟨by rw [hac, this.1], this.2⟩

theorem pipeNameChars_pid_inj (pre : List Char) (p1 s1 p2 s2 : Nat)
    (h : pipeNameChars pre p1 s1 = pipeNameChars pre p2 s2) :
    p1 = p2 ∧ s1 = s2 := by
  unfold pipeNameChars at h
  have h2 : decimalChars p1 ++ '_' :: decimalChars s1 =
      decimalChars p2 ++ '_' :: decimalChars s2 := by
    have := List.append_cancel_left h
    simpa using this
  have h3 := underscore_split (decimalChars p1) _ _ _
    (decimalChars_no_underscore p1) (decimalChars_no_underscore p2) h2
  exact ⟨decimalChars_inj _ _ h3.1, decimalChars_inj _ _ h3.2⟩

theorem pipeNameChars_pre_ne (pre1 pre2 : List Char)
    (hpre1 : ∀ c ∈ pipeHeader ++ pre1, c ≠ '_')
    (hpre2 : ∀ c ∈ pipeHeader ++ pre2, c ≠ '_')
    (hne : pre1 ≠ pre2) (p1 s1 p2 s2 : Nat)
    (h : pipeNameChars pre1 p1 s1 = pipeNameChars pre2 p2 s2) : False := by
  unfold pipeNameChars at h
  have h2 := underscore_split (pipeHeader ++ pre1) _ _ _ hpre1 hpre2 h
  exact hne (List.append_cancel_left h2.1)

theorem pipeName_eq_chars {pre1 pre2 : String} {p1 s1 p2 s2 : Nat}
    (h : pipeName pre1 p1 s1 = pipeName pre2 p2 s2) :
    pipeNameChars pre1.data p1 s1 = pipeNameChars pre2.data p2 s2 :=
  congrArg String.data h

/-- C9: pipe names generated by distinct supervisor instances (distinct
process ids) never collide, whichever of the two prefixes each name
uses, because the name embeds the decimal process id between
underscores and the fixed name parts contain no underscore; and within
one instance the output-pipe name and the shutdown-pipe name always
differ, since their prefixes differ. -/
theorem pipe_name_uniqueness (pid1 s1 pid2 s2 : Nat) (hpid : pid1 ≠ pid2) :
    (pipeName outPipePre pid1 s1 ≠ pipeName outPipePre pid2 s2 ∧
     pipeName cmdPipePre pid1 s1 ≠ pipeName cmdPipePre pid2 s2 ∧
     pipeName outPipePre pid1 s1 ≠ pipeName cmdPipePre pid2 s2 ∧
     pipeName cmdPipePre pid1 s1 ≠ pipeName outPipePre pid2 s2) ∧
    (∀ pid s, pipeName outPipePre pid s ≠ pipeName cmdPipePre pid s) := by
  have houtHU : ∀ c ∈ pipeHeader ++ outPipePre.data, c ≠ '_' := by decide
  have hcmdHU : ∀ c ∈ pipeHeader ++ cmdPipePre.data, c ≠ '_' := by decide
  have hpre : outPipePre.data ≠ cmdPipePre.data := by decide
  refine ⟨⟨?_, ?_, ?_, ?_⟩, ?_⟩
  · intro h
    exact hpid (pipeNameChars_pid_inj outPipePre.data pid1 s1 pid2 s2
      (pipeName_eq_chars h)).1
  · intro h
    exact hpid (pipeNameChars_pid_inj cmdPipePre.data pid1 s1 pid2 s2
      (pipeName_eq_chars h)).1
  · intro h
    exact pipeNameChars_pre_ne outPipePre.data cmdPipePre.data houtHU hcmdHU
      hpre pid1 s1 pid2 s2 (pipeName_eq_chars h)
  · intro h
    exact pipeNameChars_pre_ne cmdPipePre.data outPipePre.data hcmdHU houtHU
      (fun hh => hpre hh.symm) pid1 s1 pid2 s2 (pipeName_eq_chars h)
  · intro pid s h
    exact pipeNameChars_pre_ne outPipePre.data cmdPipePre.data houtHU hcmdHU
      hpre pid s pid s (pipeName_eq_chars h)

theorem pipe_name_uniqueness_witness :
    (1 : Nat) ≠ 2 ∧ pipeName outPipePre 1 5 ≠ pipeName outPipePre 2 5 :=
  ⟨by decide, ((pipe_name_uniqueness 1 5 2 5 (by decide)).1).1⟩

end Launcher
